import Mathlib

/-!
Verification development for the quantum circuit dispatch microservice.

The definitions below are a shallow embedding of the job dispatch and
normalization engine:

* `app/api/v1/circuits.py` — the `/execute` endpoint (`execute_circuit`)
  and the internal execution routine (`_execute_circuit`);
* `app/services/circuit_executor.py` — provider availability checking and
  the six adapter wrapper functions;
* `app/services/hardware_runners/ibm_hardware_runner.py` —
  `run_on_ibm_hardware`, from service initialization (submission) onward;
* `app/services/simulation_backends/braket_backend.py` —
  `run_braket_simulation`.

External collaborators (provider SDK calls, the filesystem, the clock, the
random backend outcomes) are modelled as explicit environment records; the
returned values of each Python function are modelled as Lean structures
mirroring the dictionaries the source builds.  Python dictionaries are
modelled as association lists in insertion order, with key update
overwriting in place, matching CPython dict semantics.  The wall clock is
idealized: status polls are instantaneous and the sleep between polls is
exactly 30 seconds, so the while-loop guard `time.time() - start < timeout`
admits exactly `ceil(timeout / 30)` iterations when no poll observes a
terminal status.
-/

namespace Microservice

/-- Job lifecycle statuses, from `app/schemas/circuit.py` (`class JobStatus`).
The Python enum stores the uppercase string values; the string map is
`JobStatus.value` below. -/
inductive JobStatus where
  | QUEUED
  | RUNNING
  | COMPLETED
  | FAILED
  | CANCELLED
deriving DecidableEq, Repr

/-- String value of the status enum, as stored in the job dictionary. -/
def JobStatus.value : JobStatus → String
  | .QUEUED => "QUEUED"
  | .RUNNING => "RUNNING"
  | .COMPLETED => "COMPLETED"
  | .FAILED => "FAILED"
  | .CANCELLED => "CANCELLED"

/-- Terminal statuses of the job state machine. -/
def JobStatus.isTerminal : JobStatus → Bool
  | .COMPLETED => true
  | .FAILED => true
  | .CANCELLED => true
  | _ => false

/-- Backend types, from `app/schemas/circuit.py` (`class BackendType`). -/
inductive BackendType where
  | simulator
  | hardware
deriving DecidableEq, Repr

/-- String value of the backend type enum. -/
def BackendType.value : BackendType → String
  | .simulator => "simulator"
  | .hardware => "hardware"

/-- Measurement counts: a mapping from outcome label to a numeric value.
Integer counts and probabilities (floats in the source) are both embedded
into `Rat`. -/
abbrev Counts := List (String × Rat)

/-- Module level SDK availability flags of `app/services/circuit_executor.py`
(`QISKIT_AVAILABLE`, `CIRQ_AVAILABLE`, `BRAKET_AVAILABLE`), set by the
module-load `try/except ImportError` blocks. -/
structure SdkFlags where
  qiskitAvailable : Bool
  cirqAvailable : Bool
  braketAvailable : Bool
deriving DecidableEq, Repr

/-- Function `check_provider_availability` from `app/services/circuit_executor.py`
lines 50-71, translated branch by branch. -/
def check_provider_availability (flags : SdkFlags) (provider : String) : Bool :=
  if provider = "qiskit" then
    flags.qiskitAvailable
  else if provider = "cirq" then
    flags.cirqAvailable
  else if provider = "braket" then
    flags.braketAvailable
  else if provider = "aws" ∨ provider = "ibm" ∨ provider = "google" then
    true
  else
    false

/-- Binary digits of a natural number, most significant first, with explicit
fuel so that the recursion is structural.  Mirrors the digit sequence of the
Python b-format specifier. -/
def binDigitsAux : Nat → Nat → List Char
  | 0, _ => []
  | fuel + 1, n =>
    if n = 0 then []
    else binDigitsAux fuel (n / 2) ++ [if n % 2 = 1 then '1' else '0']

/-- Python `format(n, f"0{width}b")`: the binary representation of `n`,
left-padded with zeros to a minimum total width of `width` (never
truncated). -/
def formatBin (width n : Nat) : String :=
  let digits := if n = 0 then ['0'] else binDigitsAux n n
  String.mk (List.replicate (width - digits.length) '0' ++ digits)

/-- Result dictionary built by `run_braket_simulation` (braket_backend.py
lines 134-138): counts, an execution time, and a string-valued metadata
dictionary. -/
structure BraketSimResult where
  counts : Counts
  execution_time : Rat
  metadata : List (String × String)
deriving DecidableEq, Repr

/-- Environment of one `run_braket_simulation` call: the circuit text
properties, the parsed circuit, and what the Braket local simulator reports.
Fields mirror, in source order, the observations the function makes. -/
structure BraketEnv where
  /-- Value of `qasm_str.strip().startswith("OPENQASM 3")` (line 68). -/
  qasmIsQasm3 : Bool
  /-- The Qiskit QASM2 parse or provider conversion raised (lines 79-86). -/
  parseFailure : Bool
  /-- Value of `braket_circuit.qubit_count` (line 128). -/
  qubitCount : Nat
  /-- Value of `result.measurement_counts` for a `shots > 0` task (line 107). -/
  measurementCounts : List (String × Int)
  /-- Value of `result.task_metadata.status` of the `shots > 0` task (line 111). -/
  sampledStatus : String
  /-- Python truthiness of `not result.result_types` (line 122). -/
  resultTypesEmpty : Bool
  /-- Value of `result.result_types[0].value`, the per-index probability vector
  (line 127). -/
  probabilities : List Rat
  /-- Value of `result.task_metadata.status` of the `shots = 0` task (line 132). -/
  probStatus : String
  /-- Value of `simulator.name` (lines 111 and 132). -/
  simulatorName : String
deriving DecidableEq, Repr

/-- Function `run_braket_simulation` from
`app/services/simulation_backends/braket_backend.py` lines 20-153,
translated branch by branch.  `None` returns are `none`; the QASM3 check,
the parse failures and the empty-result-types check are the early exits of
the source. -/
def run_braket_simulation (env : BraketEnv) (shots : Int) :
    Option BraketSimResult :=
  if env.qasmIsQasm3 then none
  else if env.parseFailure then none
  else if shots > 0 then
    some { counts := env.measurementCounts.map (fun kv => (kv.1, (kv.2 : Rat)))
           execution_time := 0
           metadata := [("status", env.sampledStatus),
                        ("backend", env.simulatorName)] }
  else if env.resultTypesEmpty then none
  else
    some { counts := env.probabilities.enum.map
             (fun ip => (formatBin env.qubitCount ip.1, ip.2))
           execution_time := 0
           metadata := [("status", env.probStatus),
                        ("backend", env.simulatorName),
                        ("result_type", "probabilities")] }

/-- Concrete Braket environment: a 2-qubit Bell circuit whose probability
vector is `[1/2, 0, 0, 1/2]`. -/
def c8SampleEnv : BraketEnv :=
  { qasmIsQasm3 := false
    parseFailure := false
    qubitCount := 2
    measurementCounts := []
    sampledStatus := "COMPLETED"
    resultTypesEmpty := false
    probabilities := [(1 : Rat) / 2, 0, 0, (1 : Rat) / 2]
    probStatus := "COMPLETED"
    simulatorName := "StateVectorSimulator" }

/-- Metadata values appearing in the dictionaries built by
`run_on_ibm_hardware`: strings, integers, floats (embedded as `Rat`) and the
optional `device_id` string. -/
inductive IVal where
  | s (v : String)
  | i (v : Int)
  | f (v : Rat)
  | o (v : Option String)
deriving DecidableEq, Repr

/-- CPython dictionary assignment `d[k] = v` on an insertion-ordered
association list: overwrite in place when the key exists, append otherwise.
Also models `{**d, k: v}`. -/
def dictSet (d : List (String × IVal)) (k : String) (v : IVal) :
    List (String × IVal) :=
  if d.any (fun kv => kv.1 = k) then
    d.map (fun kv => if kv.1 = k then (k, v) else kv)
  else d ++ [(k, v)]

/-- One attribute of `pub_result.data`: its name, whether the attribute
value exposes a `get_counts` method, and — when it does — the outcome of
calling it (`none` models the call raising, which `attempt_extraction`
catches). -/
structure DataAttr where
  name : String
  hasGetCounts : Bool
  getCountsResult : Option Counts
deriving DecidableEq, Repr

/-- The `pub_result.data` object, as the list of its attributes in `dir`
enumeration order. -/
structure PubData where
  attrs : List DataAttr
deriving DecidableEq, Repr

/-- One element of `result._pub_results`; `data = none` models a
`pub_result` without a `data` attribute (line 378). -/
structure PubResult where
  data : Option PubData
deriving DecidableEq, Repr

/-- Python `getattr(data, name)`: the first attribute with that name. -/
def getattrData (d : PubData) (name : String) : Option DataAttr :=
  d.attrs.find? (fun a => a.name = name)

/-- The nested `attempt_extraction` closure of `run_on_ibm_hardware`
(ibm_hardware_runner.py lines 324-342): require a truthy register name and
the named attribute on the data object, then a `get_counts` method on it;
a raising `get_counts` call is caught and yields `None`. -/
def attempt_extraction (d : PubData) (regName : String) : Option Counts :=
  if regName = "" then none
  else
    match getattrData d regName with
    | none => none
    | some a => if a.hasGetCounts then a.getCountsResult else none

/-- The retry loop over alternate register names (lines 354-357): first
successful extraction wins. -/
def firstExtraction (d : PubData) : List String → Option Counts
  | [] => none
  | n :: rest =>
    match attempt_extraction d n with
    | some c => some c
    | none => firstExtraction d rest

/-- The exhaustive attribute probe (lines 360-370): every attribute of the
data object whose name does not start with an underscore and whose value
offers `get_counts` is tried via `attempt_extraction`; the first success
stops the loop. -/
def probeAttrs (d : PubData) : List DataAttr → Option Counts
  | [] => none
  | a :: rest =>
    if a.name.startsWith "_" then probeAttrs d rest
    else
      match getattrData d a.name with
      | none => probeAttrs d rest
      | some av =>
        if av.hasGetCounts then
          match attempt_extraction d a.name with
          | some c => some c
          | none => probeAttrs d rest
        else probeAttrs d rest

/-- The classical-register name determined at lines 306-316: the first
declared register of the circuit, defaulting to "c" when the circuit has
none (Python truthiness of `circuit.cregs`). -/
def primaryCreg (cregs : List String) : String :=
  match cregs with
  | [] => "c"
  | c :: _ => c

/-- Extraction from the first sub-result of the `_pub_results` shape
(lines 300-381): primary register name from the circuit (first declared
classical register, defaulting to "c"), then the common alternates with the
already-tried name removed (lines 350-352), then the attribute probe. -/
def extract_counts_from_pub (cregs : List String) (pr : PubResult) :
    Option Counts :=
  let creg_name := primaryCreg cregs
  match pr.data with
  | none => none
  | some d =>
    match attempt_extraction d creg_name with
    | some c => some c
    | none =>
      let common := ["c", "meas", "measurement"]
      let names := if creg_name ∈ common then common.erase creg_name
        else common
      match firstExtraction d names with
      | some c => some c
      | none => probeAttrs d d.attrs

/-- Shapes of the object returned by `job.result()`, as discriminated by the
`hasattr` chain of lines 282-296: a direct `get_counts` accessor (whose call
may raise, modelled by `none`), a `data` attribute with or without a
`counts` field, the `_pub_results` list, or none of these. -/
inductive RawResult where
  | withGetCounts (res : Option Counts)
  | withData (counts : Option Counts)
  | withPubResults (pubs : List PubResult)
  | bare
deriving DecidableEq, Repr

/-- The `result_counts` value after the extraction chain of lines 277-381.
An empty `_pub_results` list fails the `elif` guard at line 296 (Python
truthiness), so no branch assigns `result_counts`. -/
def extract_result_counts (cregs : List String) : RawResult → Option Counts
  | .withGetCounts res => res
  | .withData counts => counts
  | .withPubResults pubs =>
    match pubs with
    | [] => none
    | pr :: _ => extract_counts_from_pub cregs pr
  | .bare => none

/-- The sentinel emitted when no counts could be extracted (line 390). -/
def sentinelCounts : Counts := [("error_extracting_counts", 1)]

/-- The final `counts` value of the result-processing block (lines 384-390):
the extracted counts, or the sentinel. -/
def ibm_counts (cregs : List String) (raw : RawResult) : Counts :=
  (extract_result_counts cregs raw).getD sentinelCounts

/-- Python `str.upper()` on the ASCII status strings: uppercase each
character. -/
def strUpper (s : String) : String := String.mk (s.data.map Char.toUpper)

/-- Terminal provider statuses recognized by the polling loop for the
string-valued (Runtime API) representation (line 246). -/
def isTerminalProviderStatus (s : String) : Bool :=
  s = "DONE" ∨ s = "ERROR" ∨ s = "CANCELLED"

/-- Number of iterations the polling loop admits when no poll observes a
terminal status: the guard `time.time() - start_time < poll_timeout_seconds`
is checked at 30-second marks (idealized clock), so `ceil(timeout / 30)`
iterations run. -/
def pollBudget (timeout : Int) : Nat :=
  if timeout ≤ 0 then 0 else (timeout.toNat + 29) / 30

/-- Number of `job.status()` calls made inside the polling loop: the loop
breaks right after the first terminal status, and otherwise exhausts its
budget. -/
def loopQueries (statusAt : Nat → String) (m : Nat) : Nat :=
  match (List.range m).find? (fun i => isTerminalProviderStatus (statusAt i))
  with
  | some i => i + 1
  | none => m

/-- An exception caught by the submission-phase handler (line 417); the flag
records the `isinstance(e, UnboundLocalError)` test together with the
specific counts-variable message test of line 422. -/
structure SubmitErr where
  msg : String
  isCountsUnboundLocal : Bool
deriving DecidableEq, Repr

/-- Environment of one `run_on_ibm_hardware` call, covering the provider
interactions from line 43 onward. -/
structure IBMEnv where
  /-- An early-return failure before submission: Qiskit missing
  (lines 45-53) or no API token found (lines 83-90); both return an error
  counts dictionary carrying the message. -/
  preFailure : Option String
  /-- Outcome of the submission phase (lines 110-221): the exception caught
  at line 417, or the provider job id `job.job_id()`. -/
  submit : Except SubmitErr String
  /-- Name of the selected backend device. -/
  deviceName : String
  /-- Provider status string returned by the k-th `job.status()` call,
  0-indexed (string statuses, per the Runtime API). -/
  statusAt : Nat → String
  /-- Outcome of `job.result()` (line 273): an exception message, or the
  shape of the returned raw result object. -/
  jobResult : Except String RawResult
  /-- Names of the classical registers of the parsed circuit
  (`circuit.cregs`, declaration order), read at lines 306-316. -/
  cregs : List String
  /-- The `time.time() - start_time` value recorded at line 268. -/
  elapsed : Rat

/-- The dictionary returned by `run_on_ibm_hardware`, instrumented with the
number of `job.status()` calls performed. -/
structure IBMRunOut where
  counts : Counts
  metadata : List (String × IVal)
  statusQueries : Nat
deriving DecidableEq, Repr

/-- Function `run_on_ibm_hardware` from
`app/services/hardware_runners/ibm_hardware_runner.py` lines 17-442,
starting at the credential check; the QASM read and parse (lines 92-107) are
subsumed into `preFailure`.  Status strings are queried in order: the loop
queries indices `0..`, the final check at line 256 queries the next index,
and the failure message at line 403 queries once more. -/
def run_on_ibm_hardware (env : IBMEnv) (device_id : Option String)
    (shots : Int) (wait_for_results : Bool) (poll_timeout_seconds : Int)
    (optimization_level : Int) : IBMRunOut :=
  match env.preFailure with
  | some msg =>
    { counts := [("error", 1)]
      metadata := [("platform", .s "ibm"), ("device_id", .o device_id),
                   ("error", .s msg)]
      statusQueries := 0 }
  | none =>
    match env.submit with
    | .error er =>
      if er.isCountsUnboundLocal then
        { counts := [("error_unbound_counts", 1)]
          metadata := [("platform", .s "ibm"), ("device_id", .o device_id),
            ("error", .s "Failed to process result: counts variable was not properly assigned")]
          statusQueries := 0 }
      else
        { counts := [("error", 1)]
          metadata := [("platform", .s "ibm"), ("device_id", .o device_id),
            ("error",
              .s ("Failed to submit circuit to IBM Quantum: " ++ er.msg))]
          statusQueries := 0 }
    | .ok job_id =>
      let metadata : List (String × IVal) :=
        [("platform", .s "ibm"), ("provider", .s "IBM"),
         ("device", .s env.deviceName), ("device_id", .o device_id),
         ("provider_job_id", .s job_id),
         ("optimization_level", .i optimization_level)]
      if wait_for_results then
        let q := loopQueries env.statusAt (pollBudget poll_timeout_seconds)
        let job_final_status := env.statusAt q
        if strUpper job_final_status = "DONE" then
          let metadata := dictSet (dictSet (dictSet metadata
            "shots" (.i shots)) "status" (.s job_final_status))
            "execution_time" (.f env.elapsed)
          match env.jobResult with
          | .error e =>
            { counts := [("error", 1)]
              metadata :=
                dictSet metadata "error" (.s ("Failed to process result: " ++ e))
              statusQueries := q + 1 }
          | .ok raw =>
            { counts := ibm_counts env.cregs raw
              metadata := metadata
              statusQueries := q + 1 }
        else
          let error_msg :=
            "Job failed or timed out. Final status: " ++ env.statusAt (q + 1)
          { counts := [("error", 1)]
            metadata := dictSet metadata "error" (.s error_msg)
            statusQueries := q + 2 }
      else
        { counts := [("pending", (shots : Rat))]
          metadata := dictSet (dictSet metadata "status" (.s "QUEUED"))
            "message" (.s "Job submitted but not waiting for results")
          statusQueries := 0 }

/-- Specification-side extraction ladder for the `_pub_results` shape,
phrased exactly as claim C7 orders the steps: first sub-result; primary
register name (first declared register, default "c"); the common alternate
names "c", "meas", "measurement" in order; the attribute probe; the
single-diagnostic-key sentinel. -/
def claimLadderCounts (cregs : List String) (pr : PubResult) : Counts :=
  match pr.data with
  | none => sentinelCounts
  | some d =>
    match attempt_extraction d (primaryCreg cregs) with
    | some c => c
    | none =>
      match firstExtraction d ["c", "meas", "measurement"] with
      | some c => c
      | none =>
        match probeAttrs d d.attrs with
        | some c => c
        | none => sentinelCounts

/-- Concrete environment for the C9 witness. -/
def c9SampleEnv : IBMEnv :=
  { preFailure := none
    submit := .ok "ibm-job-42"
    deviceName := "ibm_brisbane"
    statusAt := fun _ => "QUEUED"
    jobResult := .ok .bare
    cregs := ["c"]
    elapsed := 0 }

/-- The provider-specific parameter bag.  The fields are exactly the keys
the IBM wrapper reads with `parameters.get(...)` and then also passes as
explicit keywords to `run_on_ibm_hardware` (circuit_executor.py lines
231-247); a `some` field means the key is present in the dictionary.  All
other keys are forwarded opaquely; the model assumes they do not collide
with the remaining explicit keywords of the runner calls (`qasm_file`,
`device_id`, `shots`, and the AWS/Google credential keywords — for the
simulator and the absent AWS/Google runners any call-time exception is
already absorbed by the respective run oracle, which models everything the
try block can raise). -/
structure Params where
  wait_for_results : Option Bool
  poll_timeout_seconds : Option Int
  optimization_level : Option Int
  api_token : Option String
deriving DecidableEq, Repr

/-- The empty dictionary substituted by `job["parameters"] or {}`. -/
def Params.emptyBag : Params := ⟨none, none, none, none⟩

/-- The first key of the parameter bag that collides with an explicit
keyword of the `run_on_ibm_hardware` call (circuit_executor.py lines
238-247): the call passes `wait_for_results`, `poll_timeout_seconds`,
`optimization_level` and `api_token` explicitly and then also unpacks
`**parameters`, so Python raises a duplicate-keyword `TypeError` whenever
the bag itself contains any of those keys.  The bag's (caller-determined)
iteration order is abstracted as this fixed field order. -/
def Params.dupKeyword (p : Params) : Option String :=
  if p.wait_for_results.isSome then some "wait_for_results"
  else if p.poll_timeout_seconds.isSome then some "poll_timeout_seconds"
  else if p.optimization_level.isSome then some "optimization_level"
  else if p.api_token.isSome then some "api_token"
  else none

/-- Values stored in the result metadata dictionary built by
`_execute_circuit` (circuits.py lines 248-258 and 306-316). -/
inductive MVal where
  | str (v : String)
  | int (v : Int)
  | ostr (v : Option String)
  | pbag (v : Option Params)
deriving DecidableEq, Repr

/-- Python truthiness of a metadata value, as tested by
`if provider_job_id:` at circuits.py line 286.  A parameter bag is a
dictionary; its truthiness is never actually consulted because the id and
status lookups only ever find string-valued fields. -/
def MVal.truthy : MVal → Bool
  | .str v => v ≠ ""
  | .int v => v ≠ 0
  | .ostr v => v.isSome ∧ v ≠ some ""
  | .pbag v => v.isSome

/-- A job record, mirroring the dictionary created at circuits.py
lines 121-133.  The status field stores the enum whose `.value` string the
dictionary holds. -/
structure Job where
  job_id : String
  status : JobStatus
  created_at : String
  circuit_path : String
  parameters : Option Params
  shots : Int
  backend_type : String
  backend_provider : String
  backend_name : Option String
  provider_job_id : Option MVal
  provider_job_status : Option MVal
deriving DecidableEq, Repr

/-- Python `os.path.basename` on the slash-separated paths the engine builds. -/
def basename (p : String) : String :=
  (p.splitOn "/").getLastD p

/-- A successful return value of `run_qiskit_simulation`,
`run_cirq_simulation` or `run_braket_simulation`: a dictionary carrying a
counts entry (the only field the wrapper reads after the `None` check). -/
structure SimRun where
  counts : Counts
deriving DecidableEq, Repr

/-- The value returned by an adapter wrapper and stored by
`_execute_circuit` into `result_data["counts"]`: the simulator and
AWS/Google wrappers return a plain counts dictionary, while
`execute_circuit_with_ibm_hardware` returns the full IBM result dictionary
(counts plus metadata). -/
inductive Payload where
  | counts (c : Counts)
  | ibm (r : IBMRunOut)
deriving DecidableEq, Repr

/-- Environment of one `_execute_circuit` run: the outcome of each possible
backend call, plus the clock and timestamp observations.  For the simulator
backends `.error` is an exception raised by `run_*_simulation`, `.ok none`
is a `None` return, and `.ok (some r)` a successful result.  The AWS and
Google hardware runner modules are imported by `circuit_executor.py` but are
not part of the source tree, so their outcomes are opaque oracles at the
same granularity. -/
structure DispatchEnv where
  qiskitRun : Except String (Option SimRun)
  braketRun : Except String (Option SimRun)
  cirqRun : Except String (Option SimRun)
  ibm : IBMEnv
  awsRun : Except String (Option Counts)
  googleRun : Except String (Option Counts)
  /-- Execution time written into the IBM result metadata by the wrapper
  (circuit_executor.py lines 252-255). -/
  wrapTime : Rat
  /-- Value of `time.time() - start_time` measured by `_execute_circuit`
  (circuits.py line 242). -/
  execTime : Rat
  /-- Value of `datetime.now().isoformat()` at success persistence (line 257). -/
  completed_at : String
  /-- Value of `datetime.now().isoformat()` at failure persistence (line 315). -/
  failed_at : String

/-- Wrapper `execute_circuit_with_qiskit` (circuit_executor.py lines 74-116): the
availability guard raises outside the try block, a `None` result raises
inside it, and every exception inside the try block is re-raised with the
fixed prefix. -/
def execute_circuit_with_qiskit (flags : SdkFlags) (env : DispatchEnv) :
    Except String Counts :=
  if ¬ flags.qiskitAvailable then .error "Qiskit is not available"
  else
    match env.qiskitRun with
    | .error e => .error ("Failed to execute circuit with Qiskit: " ++ e)
    | .ok none =>
      .error
        "Failed to execute circuit with Qiskit: Qiskit simulation returned no results"
    | .ok (some r) => .ok r.counts

/-- Wrapper `execute_circuit_with_cirq` (circuit_executor.py lines 119-161). -/
def execute_circuit_with_cirq (flags : SdkFlags) (env : DispatchEnv) :
    Except String Counts :=
  if ¬ flags.cirqAvailable then .error "Cirq is not available"
  else
    match env.cirqRun with
    | .error e => .error ("Failed to execute circuit with Cirq: " ++ e)
    | .ok none =>
      .error
        "Failed to execute circuit with Cirq: Cirq simulation returned no results"
    | .ok (some r) => .ok r.counts

/-- Wrapper `execute_circuit_with_braket` (circuit_executor.py lines 164-206). -/
def execute_circuit_with_braket (flags : SdkFlags) (env : DispatchEnv) :
    Except String Counts :=
  if ¬ flags.braketAvailable then .error "Braket is not available"
  else
    match env.braketRun with
    | .error e => .error ("Failed to execute circuit with Braket: " ++ e)
    | .ok none =>
      .error
        "Failed to execute circuit with Braket: Braket simulation returned no results"
    | .ok (some r) => .ok r.counts

/-- Wrapper `execute_circuit_with_ibm_hardware` (circuit_executor.py lines
209-261): the polling options are read from the parameter bag with their
defaults and then passed as explicit keywords to `run_on_ibm_hardware`
together with `**parameters`, so when the bag itself contains any of those
keys Python raises a duplicate-keyword `TypeError` at the call — inside the
try block, hence caught at line 259 and re-raised with the fixed prefix
(the `\x27` escapes render the apostrophes of the Python message).
Otherwise the runner never raises and never returns `None` (it converts all
failures into error dictionaries), and the wrapper stamps an execution time
into the returned metadata. -/
def execute_circuit_with_ibm_hardware_wrapper (env : DispatchEnv)
    (parameters : Params) (shots : Int) (device_id : Option String) :
    Except String IBMRunOut :=
  match parameters.dupKeyword with
  | some k =>
    .error ("Failed to execute circuit on IBM hardware: run_on_ibm_hardware() got multiple values for keyword argument \x27"
      ++ k ++ "\x27")
  | none =>
    let wait := parameters.wait_for_results.getD true
    let timeout := parameters.poll_timeout_seconds.getD 3600
    let opt := parameters.optimization_level.getD 1
    let r := run_on_ibm_hardware env.ibm device_id shots wait timeout opt
    .ok { r with
      metadata := dictSet r.metadata "execution_time" (.f env.wrapTime) }

/-- Wrapper `execute_circuit_with_aws_hardware` (circuit_executor.py lines
264-321); the runner module itself is not in the source tree, so its
outcome is the oracle `awsRun`, whose error case stands for anything the
try block raises — including a duplicate-keyword TypeError at the call
when the bag repeats an explicit keyword — and the delivered counts stand
for `result.get("counts", {})`. -/
def execute_circuit_with_aws_hardware_wrapper (env : DispatchEnv) :
    Except String Counts :=
  match env.awsRun with
  | .error e => .error ("Failed to execute circuit on AWS hardware: " ++ e)
  | .ok none =>
    .error
      "Failed to execute circuit on AWS hardware: AWS hardware execution returned no results"
  | .ok (some c) => .ok c

/-- Wrapper `execute_circuit_with_google_hardware` (circuit_executor.py lines
324-375); the runner module is likewise absent from the source tree, and
the `googleRun` oracle covers everything its try block raises. -/
def execute_circuit_with_google_hardware_wrapper (env : DispatchEnv) :
    Except String Counts :=
  match env.googleRun with
  | .error e => .error ("Failed to execute circuit on Google hardware: " ++ e)
  | .ok none =>
    .error
      "Failed to execute circuit on Google hardware: Google hardware execution returned no results"
  | .ok (some c) => .ok c

/-- The backend dispatch of `_execute_circuit` (circuits.py lines 220-240),
returning the adapter outcome together with the list of adapters actually
invoked (instrumentation used to state that validation failures never reach
an adapter). -/
def dispatchBackend (flags : SdkFlags) (env : DispatchEnv) (job : Job)
    (parameters : Params) : Except String Payload × List String :=
  if job.backend_type = "simulator" then
    if job.backend_provider = "qiskit" then
      ((execute_circuit_with_qiskit flags env).map .counts, ["qiskit"])
    else if job.backend_provider = "braket" then
      ((execute_circuit_with_braket flags env).map .counts, ["braket"])
    else if job.backend_provider = "cirq" then
      ((execute_circuit_with_cirq flags env).map .counts, ["cirq"])
    else
      (.error ("Unsupported simulator provider: " ++ job.backend_provider),
        [])
  else if job.backend_type = "hardware" then
    if job.backend_provider = "ibm" then
      ((execute_circuit_with_ibm_hardware_wrapper env parameters job.shots
        job.backend_name).map .ibm, ["ibm"])
    else if job.backend_provider = "aws" then
      ((execute_circuit_with_aws_hardware_wrapper env).map .counts, ["aws"])
    else if job.backend_provider = "google" then
      ((execute_circuit_with_google_hardware_wrapper env).map .counts,
        ["google"])
    else
      (.error ("Unsupported hardware provider: " ++ job.backend_provider),
        [])
  else
    (.error ("Unsupported backend type: " ++ job.backend_type), [])

/-- The metadata dictionary of a successful result (circuits.py
lines 248-258), in insertion order. -/
def successMetadata (job : Job) (parameters : Params)
    (completed_at : String) : List (String × MVal) :=
  [("circuit_file", .str (basename job.circuit_path)),
   ("job_id", .str job.job_id),
   ("backend_type", .str job.backend_type),
   ("backend_provider", .str job.backend_provider),
   ("backend_name", .ostr job.backend_name),
   ("shots", .int job.shots),
   ("parameters", .pbag (some parameters)),
   ("created_at", .str job.created_at),
   ("completed_at", .str completed_at)]

/-- The metadata dictionary of a failure record (circuits.py
lines 306-316). -/
def errorMetadata (job : Job) (failed_at : String) : List (String × MVal) :=
  [("circuit_file", .str (basename job.circuit_path)),
   ("job_id", .str job.job_id),
   ("backend_type", .str job.backend_type),
   ("backend_provider", .str job.backend_provider),
   ("backend_name", .ostr job.backend_name),
   ("shots", .int job.shots),
   ("parameters", .pbag job.parameters),
   ("created_at", .str job.created_at),
   ("failed_at", .str failed_at)]

/-- Dictionary `result_data` as persisted on success (circuits.py lines 245-260). -/
structure ResultData where
  counts : Payload
  execution_time : Rat
  metadata : List (String × MVal)
  success : Bool
deriving DecidableEq, Repr

/-- Dictionary `error_data` as persisted on failure (circuits.py lines 304-318). -/
structure ErrorData where
  error : String
  metadata : List (String × MVal)
  success : Bool
deriving DecidableEq, Repr

/-- A record written to `results/{job_id}.json`. -/
inductive Persisted where
  | ok (r : ResultData)
  | err (e : ErrorData)
deriving DecidableEq, Repr

/-- The dictionary returned by `_execute_circuit`: the job-not-found early
return of line 204, or the persisted record. -/
inductive ExecReturn where
  | notFound
  | ok (r : ResultData)
  | err (e : ErrorData)
deriving DecidableEq, Repr

/-- The `for field in [...]: if field in metadata: take it; break` scans of
circuits.py lines 274-283. -/
def firstField (md : List (String × MVal)) : List String → Option MVal
  | [] => none
  | k :: ks =>
    match md.lookup k with
    | some v => some v
    | none => firstField md ks

/-- Path of the result file written for a job. -/
def resultPath (job_id : String) : String := "results/" ++ job_id ++ ".json"

/-- Outcome of running `_execute_circuit` on a job that exists: the final
job record, the sequence of writes to `job["status"]`, the returned
dictionary, the result-file writes, and the adapters invoked. -/
structure RunOut where
  job : Job
  trace : List JobStatus
  ret : ExecReturn
  persisted : List (String × Persisted)
  invoked : List String
deriving DecidableEq, Repr

/-- The body of `_execute_circuit` (circuits.py lines 206-324) on a job
found in the registry: mark RUNNING, dispatch to the selected adapter,
persist the success record and harvest provider id and status fields from
its metadata before marking COMPLETED, or catch the exception, mark FAILED
and persist the failure record.  The `result_data.get("success", False)`
guard at line 267 is always true on this path because `success` was just
set to `True` at line 259. -/
def runJobCore (flags : SdkFlags) (env : DispatchEnv) (job : Job) : RunOut :=
  let job1 := { job with status := .RUNNING }
  let parameters := job1.parameters.getD Params.emptyBag
  match dispatchBackend flags env job1 parameters with
  | (.ok payload, inv) =>
    let md := successMetadata job1 parameters env.completed_at
    let rd : ResultData :=
      { counts := payload, execution_time := env.execTime, metadata := md,
        success := true }
    let pjid := firstField md ["task_id", "job_id", "provider_job_id"]
    let pjst := firstField md
      ["status", "job_status", "provider_status", "task_status"]
    let job2 := match pjid with
      | some v =>
        if v.truthy then { job1 with provider_job_id := some v } else job1
      | none => job1
    let job3 := match pjst with
      | some v =>
        if v.truthy then { job2 with provider_job_status := some v }
        else job2
      | none => job2
    { job := { job3 with status := .COMPLETED }
      trace := [.RUNNING, .COMPLETED]
      ret := .ok rd
      persisted := [(resultPath job1.job_id, .ok rd)]
      invoked := inv }
  | (.error e, inv) =>
    let ed : ErrorData :=
      { error := e, metadata := errorMetadata job1 env.failed_at,
        success := false }
    { job := { job1 with status := .FAILED }
      trace := [.RUNNING, .FAILED]
      ret := .err ed
      persisted := [(resultPath job1.job_id, .err ed)]
      invoked := inv }

/-- Replace the record stored under a job id. -/
def updateJob (jobs : List (String × Job)) (jid : String) (j : Job) :
    List (String × Job) :=
  jobs.map (fun kv => if kv.1 = jid then (jid, j) else kv)

/-- Outcome of `_execute_circuit` at the registry level. -/
structure ExecOut where
  jobs : List (String × Job)
  ret : ExecReturn
  trace : List JobStatus
  persisted : List (String × Persisted)
  invoked : List String
deriving DecidableEq, Repr

/-- Routine `_execute_circuit` (circuits.py lines 192-324): look the job up in the
in-memory registry, return the not-found dictionary when absent, and run
the core on the (aliased, hence updated in place) record otherwise. -/
def executeCircuitInternal (flags : SdkFlags) (env : DispatchEnv)
    (jobs : List (String × Job)) (job_id : String) : ExecOut :=
  match jobs.lookup job_id with
  | none => { jobs := jobs, ret := .notFound, trace := [], persisted := [],
              invoked := [] }
  | some job =>
    let o := runJobCore flags env job
    { jobs := updateJob jobs job_id o.job, ret := o.ret, trace := o.trace,
      persisted := o.persisted, invoked := o.invoked }

/-- Schema `CircuitExecutionRequest` from `app/schemas/circuit.py`: the fields the
endpoint consumes.  The pydantic layer guarantees `backend_type` is one of
the two enum values; `shots` defaults to 1024 and `async_mode` to false. -/
structure CircuitExecutionRequest where
  circuit_file : Option String
  shots : Int
  backend_type : BackendType
  backend_provider : String
  backend_name : Option String
  async_mode : Bool
  parameters : Option Params
deriving DecidableEq, Repr

/-- An ASCII whitespace character, as stripped by Python `str.strip()`. -/
def isSpaceChar (c : Char) : Bool :=
  c = ' ' ∨ c = '\t' ∨ c = '\n' ∨ c = '\r'

/-- Python `str.strip()`: drop leading and trailing whitespace. -/
def pyStrip (s : String) : String :=
  String.mk (((s.data.dropWhile isSpaceChar).reverse.dropWhile
    isSpaceChar).reverse)

/-- The guard at circuits.py line 77: `not request.circuit_file or
request.circuit_file.strip() == ""` (Python string truthiness plus
whitespace stripping). -/
def isBlankCircuit (cf : Option String) : Bool :=
  match cf with
  | none => true
  | some s => s = "" ∨ pyStrip s = ""

/-- Provider sets valid for each backend type (circuits.py lines 91-96). -/
def validProviders (bt : BackendType) : List String :=
  match bt with
  | .simulator => ["qiskit", "braket", "cirq"]
  | .hardware => ["aws", "ibm", "google"]

/-- The `CircuitExecutionResponse` fields the endpoint fills in. -/
structure RespBody where
  job_id : String
  status : JobStatus
  execution_mode : String
  counts : Option Payload
  execution_time : Option Rat
  provider_job_id : Option MVal
  provider_job_status : Option MVal
deriving DecidableEq, Repr

/-- The HTTP-level outcome of the endpoint: a raised `HTTPException`, or the
returned envelope dictionary `{"status": ..., "data": ..., "error": ...}`. -/
inductive Response where
  | httpError (code : Nat) (detail : String)
  | envelope (status : String) (body : Option RespBody)
      (error : Option String)
deriving DecidableEq, Repr

/-- Everything one request to `/execute` produces: the response, the job
registry afterwards, the background tasks enqueued, the sequence of status
values the new job record went through (its creation value followed by the
writes of `_execute_circuit`), the result-file writes, the circuit-file
writes, and the adapters invoked. -/
structure EndpointOut where
  response : Response
  jobs : List (String × Job)
  bgTasks : List String
  trace : List JobStatus
  persisted : List (String × Persisted)
  circuits : List (String × String)
  invoked : List String
deriving DecidableEq, Repr

/-- An `EndpointOut` for a request rejected before job creation. -/
def rejectedOut (jobs : List (String × Job)) (code : Nat) (detail : String) :
    EndpointOut :=
  { response := .httpError code detail, jobs := jobs, bgTasks := [],
    trace := [], persisted := [], circuits := [], invoked := [] }

/-- The job record created at circuits.py lines 121-133. -/
def mkJob (req : CircuitExecutionRequest) (new_job_id created_at : String) :
    Job :=
  { job_id := new_job_id, status := .QUEUED, created_at := created_at,
    circuit_path := "circuits/" ++ new_job_id ++ ".qasm",
    parameters := req.parameters,
    shots := req.shots, backend_type := req.backend_type.value,
    backend_provider := req.backend_provider,
    backend_name := req.backend_name,
    provider_job_id := none, provider_job_status := none }

/-- Python dictionary assignment `jobs[job_id] = job` on the registry. -/
def setJob (jobs : List (String × Job)) (jid : String) (j : Job) :
    List (String × Job) :=
  if jobs.any (fun kv => kv.1 = jid) then updateJob jobs jid j
  else jobs ++ [(jid, j)]

/-- The synchronous response of the endpoint (circuits.py lines 139-166),
assembled from the `_execute_circuit` return value and the job record it
mutated: on success a COMPLETED body including the provider job fields read
back from the job, otherwise the error envelope with
`result.get("error", "Unknown execution error")`. -/
def syncResponse (new_job_id : String) (fallback : Job) (o : ExecOut) :
    Response :=
  match o.ret with
  | .ok rd =>
    let jobAfter := (o.jobs.lookup new_job_id).getD fallback
    .envelope "success" (some
      { job_id := new_job_id, status := .COMPLETED,
        execution_mode := "sync", counts := some rd.counts,
        execution_time := some rd.execution_time,
        provider_job_id := jobAfter.provider_job_id,
        provider_job_status := jobAfter.provider_job_status }) none
  | .err ed => .envelope "error" none (some ed.error)
  | .notFound => .envelope "error" none (some "Job not found")

/-- The `/execute` endpoint `execute_circuit` (circuits.py lines 55-189):
the four validation guards in source order, then job creation (status
QUEUED), then either the inline synchronous call of `_execute_circuit` with
the response assembled from its return value and the mutated job record, or
enqueueing the same routine as a background task and responding QUEUED
immediately.  `new_job_id` is the generated uuid and `created_at` the
creation timestamp. -/
def execute_circuit (flags : SdkFlags) (env : DispatchEnv)
    (req : CircuitExecutionRequest) (new_job_id created_at : String)
    (jobs : List (String × Job)) : EndpointOut :=
  if isBlankCircuit req.circuit_file then
    rejectedOut jobs 400 "Empty circuit file provided"
  else if req.shots ≤ 0 then
    rejectedOut jobs 400 "Shots must be a positive integer"
  else if req.backend_provider ∉ validProviders req.backend_type then
    rejectedOut jobs 400
      ("Invalid backend provider for " ++ req.backend_type.value
        ++ ". Must be one of: "
        ++ String.intercalate ", " (validProviders req.backend_type))
  else if ¬ check_provider_availability flags req.backend_provider then
    rejectedOut jobs 400 (req.backend_provider ++ " backend is not available")
  else
    let job := mkJob req new_job_id created_at
    let jobs1 := setJob jobs new_job_id job
    let circuitWrites := [(job.circuit_path, req.circuit_file.getD "")]
    if ¬ req.async_mode then
      let o := executeCircuitInternal flags env jobs1 new_job_id
      { response := syncResponse new_job_id job o
        jobs := o.jobs, bgTasks := []
        trace := .QUEUED :: o.trace
        persisted := o.persisted, circuits := circuitWrites
        invoked := o.invoked }
    else
      { response := .envelope "success" (some
          { job_id := new_job_id, status := .QUEUED,
            execution_mode := "async", counts := none,
            execution_time := none, provider_job_id := none,
            provider_job_status := none }) none
        jobs := jobs1, bgTasks := [new_job_id]
        trace := [.QUEUED]
        persisted := [], circuits := circuitWrites
        invoked := [] }

/-- Run the background tasks enqueued by the endpoint, in order: each one
performs the identical `_execute_circuit` routine on its job id. -/
def runBgTasks (flags : SdkFlags) (env : DispatchEnv) (o : EndpointOut) :
    EndpointOut :=
  o.bgTasks.foldl
    (fun st tid =>
      let r := executeCircuitInternal flags env st.jobs tid
      { st with
        jobs := r.jobs
        trace := st.trace ++ r.trace
        persisted := st.persisted ++ r.persisted
        invoked := st.invoked ++ r.invoked })
    { o with bgTasks := [] }

/-- One request followed by the completion of whatever background work it
enqueued: the quiescent outcome of a submission in either mode. -/
def runRequest (flags : SdkFlags) (env : DispatchEnv)
    (req : CircuitExecutionRequest) (new_job_id created_at : String)
    (jobs : List (String × Job)) : EndpointOut :=
  runBgTasks flags env (execute_circuit flags env req new_job_id created_at jobs)

/-- Position of a status along the lifecycle chain
QUEUED → RUNNING → terminal. -/
def statusRank : JobStatus → Nat
  | .QUEUED => 0
  | .RUNNING => 1
  | .COMPLETED => 2
  | .FAILED => 2
  | .CANCELLED => 2

/-- A status-write trace is monotone along the lifecycle chain and never
leaves a terminal status: consecutive writes strictly increase in rank and
no write follows a terminal one. -/
def monotoneNoExit : List JobStatus → Bool
  | [] => true
  | [_] => true
  | a :: b :: rest =>
    decide (statusRank a < statusRank b) && !a.isTerminal
      && monotoneNoExit (b :: rest)

/-- All three simulator SDKs available (the common deployment). -/
def flagsAll : SdkFlags := ⟨true, true, true⟩

/-- A concrete execution environment: working simulators, and an IBM
provider that accepts the submission but reports "RUNNING" at every status
poll. -/
def sampleDispatchEnv : DispatchEnv :=
  { qiskitRun := .ok (some ⟨[("00", 512), ("11", 512)]⟩)
    braketRun := .ok (some ⟨[("0", 1024)]⟩)
    cirqRun := .ok (some ⟨[("0", 1024)]⟩)
    ibm := { preFailure := none
             submit := .ok "prov-1"
             deviceName := "ibm_brisbane"
             statusAt := fun _ => "RUNNING"
             jobResult := .ok .bare
             cregs := ["c"]
             elapsed := 0 }
    awsRun := .ok (some [("0", 1)])
    googleRun := .ok (some [("0", 1)])
    wrapTime := 0
    execTime := 0
    completed_at := "2026-01-01T00:00:10"
    failed_at := "2026-01-01T00:00:10" }

/-- The shots-is-negative request of the spec scenario. -/
def c5SampleReq : CircuitExecutionRequest :=
  { circuit_file := some "q", shots := -5, backend_type := .simulator,
    backend_provider := "qiskit", backend_name := none,
    async_mode := false, parameters := none }

/-- A well-formed synchronous qiskit request, used by several witnesses. -/
def simSampleReq : CircuitExecutionRequest :=
  { circuit_file := some "q", shots := 1024, backend_type := .simulator,
    backend_provider := "qiskit", backend_name := none,
    async_mode := false, parameters := none }

/-- A dispatch environment whose qiskit simulator raises. -/
def c6SampleEnv : DispatchEnv :=
  { sampleDispatchEnv with qiskitRun := .error "boom" }

/-- The job the failing request creates. -/
def c6SampleJob : Job := mkJob simSampleReq "job-6" "t0"

/-- A hardware request against IBM with an empty parameter bag, so the
runner call has no duplicate keywords and runs with its defaults:
`wait_for_results` true and a 3600-second polling budget. -/
def c1SampleReq : CircuitExecutionRequest :=
  { circuit_file := some "q", shots := 100, backend_type := .hardware,
    backend_provider := "ibm", backend_name := some "ibm_brisbane",
    async_mode := false, parameters := none }

/-- C10: for the hardware provider names "aws", "ibm" and "google" the check
returns True unconditionally (a placeholder: no credential or connectivity
check); for "qiskit", "cirq" and "braket" it returns the corresponding
SDK-availability flag; for every other name it returns False. -/
theorem c10_check_provider_availability (flags : SdkFlags) :
    (∀ p, p = "aws" ∨ p = "ibm" ∨ p = "google" →
      check_provider_availability flags p = true)
    ∧ check_provider_availability flags "qiskit" = flags.qiskitAvailable
    ∧ check_provider_availability flags "cirq" = flags.cirqAvailable
    ∧ check_provider_availability flags "braket" = flags.braketAvailable
    ∧ (∀ p, p ≠ "qiskit" → p ≠ "cirq" → p ≠ "braket" →
        p ≠ "aws" → p ≠ "ibm" → p ≠ "google" →
        check_provider_availability flags p = false) := by
  refine ⟨?_, ?_, ?_, ?_, ?_⟩
  · intro p hp
    rcases hp with h | h | h <;> subst h <;> rfl
  · rfl
  · rfl
  · rfl
  · intro p h1 h2 h3 h4 h5 h6
    simp [check_provider_availability, h1, h2, h3, h4, h5, h6]

/-- Witness for `c10_check_provider_availability` at concrete inputs. -/
theorem c10_check_provider_availability_witness :
    check_provider_availability ⟨true, false, true⟩ "google" = true
    ∧ check_provider_availability ⟨true, false, true⟩ "cirq" = false
    ∧ check_provider_availability ⟨true, false, true⟩ "rigetti" = false := by
  obtain ⟨h1, _, h3, _, h5⟩ := c10_check_provider_availability ⟨true, false, true⟩
  exact ⟨h1 "google" (by tauto), h3, h5 "rigetti" (by decide) (by decide)
    (by decide) (by decide) (by decide) (by decide)⟩

theorem binDigitsAux_length_le :
    ∀ (fuel n w : Nat), n ≤ fuel → n < 2 ^ w →
      (binDigitsAux fuel n).length ≤ w := by
  intro fuel
  induction fuel with
  | zero =>
    intro n w hn _
    have : n = 0 := by omega
    simp [binDigitsAux, this]
  | succ f ih =>
    intro n w hn hw
    by_cases h0 : n = 0
    · simp [binDigitsAux, h0]
    · have hw0 : w ≠ 0 := by
        intro h
        subst h
        simp at hw
        omega
      obtain ⟨w1, rfl⟩ : ∃ w1, w = w1 + 1 := ⟨w - 1, by omega⟩
      have hdiv : n / 2 < 2 ^ w1 := by
        rw [pow_succ] at hw
        omega
      have hfuel : n / 2 ≤ f := by omega
      have hrec := ih (n / 2) w1 hfuel hdiv
      simp only [binDigitsAux, h0, if_false, List.length_append,
        List.length_singleton]
      omega

/-- The zero-padded binary key has width exactly `width` whenever the index
is below `2 ^ width` and the width is positive. -/
theorem formatBin_length (width n : Nat) (hw : 0 < width) (hn : n < 2 ^ width) :
    (formatBin width n).length = width := by
  have hlen : (if n = 0 then ['0'] else binDigitsAux n n).length ≤ width := by
    by_cases h0 : n = 0
    · simp [h0]
      omega
    · simp only [h0, if_false]
      exact binDigitsAux_length_le n n width le_rfl hn
  simp only [formatBin, String.length, String.mk, List.length_append,
    List.length_replicate]
  omega

/-- C8: with `shots = 0` and a successfully parsed circuit, when the
simulator returns a per-index probability vector (one entry per outcome of
the `qubitCount`-qubit circuit), the returned counts map the zero-padded
binary representation of each index (width = qubit count) to the
backend-reported probability unchanged, and the metadata carries the
`result_type = probabilities` indicator that the sampled-counts branch never
emits. -/
theorem c8_braket_probability_mode (env : BraketEnv)
    (h3 : env.qasmIsQasm3 = false) (hp : env.parseFailure = false)
    (hrt : env.resultTypesEmpty = false)
    (hlen : env.probabilities.length = 2 ^ env.qubitCount)
    (hq : 0 < env.qubitCount) :
    ∃ r, run_braket_simulation env 0 = some r
      ∧ r.counts.map Prod.fst =
          (List.range (2 ^ env.qubitCount)).map (formatBin env.qubitCount)
      ∧ (∀ k ∈ r.counts.map Prod.fst, k.length = env.qubitCount)
      ∧ r.counts.map Prod.snd = env.probabilities
      ∧ ("result_type", "probabilities") ∈ r.metadata
      ∧ (∀ shots : Int, 0 < shots → ∀ r2,
          run_braket_simulation env shots = some r2 →
          ∀ v, ("result_type", v) ∉ r2.metadata) := by
  refine ⟨{ counts := env.probabilities.enum.map
              (fun ip => (formatBin env.qubitCount ip.1, ip.2))
            execution_time := 0
            metadata := [("status", env.probStatus),
                         ("backend", env.simulatorName),
                         ("result_type", "probabilities")] },
          ?_, ?_, ?_, ?_, ?_, ?_⟩
  · simp [run_braket_simulation, h3, hp, hrt]
  · rw [List.map_map]
    have : (Prod.fst ∘ fun ip : Nat × Rat =>
        (formatBin env.qubitCount ip.1, ip.2)) =
        (formatBin env.qubitCount ∘ Prod.fst) := rfl
    rw [this, ← List.map_map, List.enum_map_fst, hlen]
  · intro k hk
    rw [List.map_map] at hk
    obtain ⟨ip, hip, rfl⟩ := List.mem_map.mp hk
    have hfst : ip.1 ∈ env.probabilities.enum.map Prod.fst :=
      List.mem_map.mpr ⟨ip, hip, rfl⟩
    rw [List.enum_map_fst, List.mem_range, hlen] at hfst
    exact formatBin_length env.qubitCount ip.1 hq hfst
  · rw [List.map_map]
    have : (Prod.snd ∘ fun ip : Nat × Rat =>
        (formatBin env.qubitCount ip.1, ip.2)) = Prod.snd := rfl
    rw [this, List.enum_map_snd]
  · simp
  · intro shots hs r2 hr2 v
    simp only [run_braket_simulation, h3, hp, if_false, Bool.false_eq_true,
      if_pos hs] at hr2
    cases hr2
    simp

/-- Witness for `c8_braket_probability_mode` at `c8SampleEnv`. -/
theorem c8_braket_probability_mode_witness :
    (c8SampleEnv.qasmIsQasm3 = false ∧ c8SampleEnv.parseFailure = false
      ∧ c8SampleEnv.resultTypesEmpty = false
      ∧ c8SampleEnv.probabilities.length = 2 ^ c8SampleEnv.qubitCount
      ∧ 0 < c8SampleEnv.qubitCount)
    ∧ (∃ r, run_braket_simulation c8SampleEnv 0 = some r
        ∧ r.counts.map Prod.fst =
            (List.range (2 ^ c8SampleEnv.qubitCount)).map
              (formatBin c8SampleEnv.qubitCount)
        ∧ (∀ k ∈ r.counts.map Prod.fst, k.length = c8SampleEnv.qubitCount)
        ∧ r.counts.map Prod.snd = c8SampleEnv.probabilities
        ∧ ("result_type", "probabilities") ∈ r.metadata
        ∧ (∀ shots : Int, 0 < shots → ∀ r2,
            run_braket_simulation c8SampleEnv shots = some r2 →
            ∀ v, ("result_type", v) ∉ r2.metadata)) :=
  ⟨⟨rfl, rfl, rfl, by decide, by decide⟩,
    c8_braket_probability_mode c8SampleEnv rfl rfl rfl (by decide) (by decide)⟩

/-- Removing an already-failed name from the retry list does not change the
outcome of the first-success scan. -/
theorem firstExtraction_erase (d : PubData) (primary : String)
    (h : attempt_extraction d primary = none) :
    ∀ l : List String,
      firstExtraction d (l.erase primary) = firstExtraction d l := by
  intro l
  induction l with
  | nil => rfl
  | cons x xs ih =>
    by_cases hx : x = primary
    · subst hx
      rw [List.erase_cons_head]
      simp [firstExtraction, h]
    · rw [List.erase_cons_tail (by simp [hx])]
      cases hax : attempt_extraction d x <;>
        simp [firstExtraction, hax, ih]

/-- The retry list actually scanned by the source (common names with the
already-tried primary removed) scans the same as the full common list once
the primary attempt has failed. -/
theorem names_eval (d : PubData) (primary : String)
    (h : attempt_extraction d primary = none) :
    firstExtraction d
      (if primary ∈ ["c", "meas", "measurement"] then
        (["c", "meas", "measurement"] : List String).erase primary
      else ["c", "meas", "measurement"]) =
    firstExtraction d ["c", "meas", "measurement"] := by
  by_cases hmem : primary ∈ (["c", "meas", "measurement"] : List String)
  · rw [if_pos hmem, firstExtraction_erase d primary h]
  · rw [if_neg hmem]

/-- C7: normalizing a hardware-runtime result exposed as a (non-empty) list
of per-submission sub-results follows the fixed fallback order of the claim,
uses only the first sub-result, and degrades to the
`error_extracting_counts` sentinel instead of raising when everything
fails. -/
theorem c7_pub_results_extraction_order (cregs : List String)
    (pr : PubResult) (rest : List PubResult) :
    ibm_counts cregs (.withPubResults (pr :: rest)) =
      claimLadderCounts cregs pr := by
  simp only [ibm_counts, extract_result_counts, extract_counts_from_pub,
    claimLadderCounts]
  cases hd : pr.data with
  | none => simp only [hd]; rfl
  | some d =>
    simp only [hd]
    cases hatt : attempt_extraction d (primaryCreg cregs) with
    | some c => simp only [hatt, Option.getD_some]
    | none =>
      simp only [hatt]
      rw [names_eval d (primaryCreg cregs) hatt]
      cases hfe : firstExtraction d ["c", "meas", "measurement"] with
      | some c => simp only [hfe, Option.getD_some]
      | none =>
        simp only [hfe]
        cases hpa : probeAttrs d d.attrs with
        | some c => simp only [hpa, Option.getD_some]
        | none => simp only [hpa, Option.getD_none]

/-- C9: with `wait_for_results = false` and a successful submission, the
runner performs no status poll at all and returns the placeholder counts
`{"pending": shots}` with metadata status "QUEUED" carrying the provider job
identifier. -/
theorem c9_no_wait_returns_queued (env : IBMEnv) (device_id : Option String)
    (shots timeout opt : Int) (jid : String)
    (hpre : env.preFailure = none) (hsub : env.submit = .ok jid) :
    (run_on_ibm_hardware env device_id shots false timeout opt).statusQueries
        = 0
    ∧ (run_on_ibm_hardware env device_id shots false timeout opt).counts
        = [("pending", (shots : Rat))]
    ∧ (run_on_ibm_hardware env device_id shots false timeout
        opt).metadata.lookup "status" = some (.s "QUEUED")
    ∧ (run_on_ibm_hardware env device_id shots false timeout
        opt).metadata.lookup "provider_job_id" = some (.s jid) := by
  simp only [run_on_ibm_hardware, hpre, hsub]
  refine ⟨rfl, rfl, ?_, ?_⟩ <;> simp [dictSet, List.lookup]

/-- Witness for `c9_no_wait_returns_queued` at `c9SampleEnv`. -/
theorem c9_no_wait_returns_queued_witness :
    c9SampleEnv.preFailure = none ∧ c9SampleEnv.submit = .ok "ibm-job-42"
    ∧ ((run_on_ibm_hardware c9SampleEnv (some "ibm_brisbane") 100 false 3600
          1).statusQueries = 0
       ∧ (run_on_ibm_hardware c9SampleEnv (some "ibm_brisbane") 100 false
           3600 1).counts = [("pending", (100 : Rat))]
       ∧ (run_on_ibm_hardware c9SampleEnv (some "ibm_brisbane") 100 false
           3600 1).metadata.lookup "status" = some (.s "QUEUED")
       ∧ (run_on_ibm_hardware c9SampleEnv (some "ibm_brisbane") 100 false
           3600 1).metadata.lookup "provider_job_id"
           = some (.s "ibm-job-42")) :=
  ⟨rfl, rfl, c9_no_wait_returns_queued c9SampleEnv (some "ibm_brisbane") 100
    3600 1 "ibm-job-42" rfl rfl⟩

/-- A string with a non-empty prefix is non-empty. -/
theorem append_ne_empty_left (a b : String) (h : a ≠ "") : a ++ b ≠ "" := by
  intro hab
  apply h
  have hlen := congrArg String.length hab
  rw [String.length_append] at hlen
  have hz : a.length = 0 := by
    have : String.length "" = 0 := rfl
    omega
  exact String.ext (List.length_eq_zero.mp hz)

/-- Mapping over a failed `Except` does not change its error. -/
theorem except_map_error {α β γ : Type} (f : α → β) (x : Except γ α) (e : γ)
    (h : x.map f = .error e) : x = .error e := by
  cases x with
  | error a =>
    simp only [Except.map] at h
    injection h with h
    rw [h]
  | ok v => simp [Except.map] at h

/-- A key absent from the registry fails the `any` membership test. -/
theorem lookup_none_any_false (jobs : List (String × Job)) (id : String)
    (h : jobs.lookup id = none) :
    jobs.any (fun kv => kv.1 = id) = false := by
  induction jobs with
  | nil => rfl
  | cons p es ih =>
    obtain ⟨k, b⟩ := p
    by_cases hk : (id == k) = true
    · simp [List.lookup, hk] at h
    · have hk2 : (id == k) = false := by
        cases hbe : id == k
        · rfl
        · exact absurd hbe hk
      rw [List.lookup, hk2] at h
      have hne : k ≠ id := by
        intro hkk
        subst hkk
        simp at hk2
      simp [List.any, hne, ih h]

/-- Appending a fresh binding makes it visible to lookup. -/
theorem lookup_append_fresh (jobs : List (String × Job)) (id : String)
    (j : Job) (h : jobs.lookup id = none) :
    (jobs ++ [(id, j)]).lookup id = some j := by
  induction jobs with
  | nil => simp [List.lookup]
  | cons p es ih =>
    obtain ⟨k, b⟩ := p
    by_cases hk : (id == k) = true
    · simp [List.lookup, hk] at h
    · have hk2 : (id == k) = false := by
        cases hbe : id == k
        · rfl
        · exact absurd hbe hk
      rw [List.lookup, hk2] at h
      rw [List.cons_append, List.lookup, hk2]
      exact ih h

/-- Applying `setJob` on a fresh id appends, and the new binding is retrievable. -/
theorem lookup_setJob_fresh (jobs : List (String × Job)) (id : String)
    (j : Job) (h : jobs.lookup id = none) :
    (setJob jobs id j).lookup id = some j := by
  rw [setJob, lookup_none_any_false jobs id h]
  simp only [Bool.false_eq_true, if_false]
  exact lookup_append_fresh jobs id j h

/-- Updating the binding of a fresh-then-appended id replaces it. -/
theorem lookup_updateJob_fresh (jobs : List (String × Job)) (id : String)
    (j j2 : Job) (h : jobs.lookup id = none) :
    (updateJob (jobs ++ [(id, j)]) id j2).lookup id = some j2 := by
  induction jobs with
  | nil =>
    have hu : updateJob ([] ++ [(id, j)]) id j2 = [(id, j2)] := by
      rw [List.nil_append, updateJob]
      simp
    rw [hu]
    simp [List.lookup]
  | cons p es ih =>
    obtain ⟨k, b⟩ := p
    by_cases hk : (id == k) = true
    · simp [List.lookup, hk] at h
    · have hk2 : (id == k) = false := by
        cases hbe : id == k
        · rfl
        · exact absurd hbe hk
      rw [List.lookup, hk2] at h
      have hne : k ≠ id := by
        intro hkk
        subst hkk
        simp at hk2
      rw [List.cons_append, updateJob, List.map]
      simp only [hne, if_false]
      rw [List.lookup, hk2]
      exact ih h

/-- Every run of the core routine ends the job in COMPLETED or FAILED, with
the matching two-step status-write trace. -/
theorem runJobCore_terminal (flags : SdkFlags) (env : DispatchEnv)
    (job : Job) :
    ((runJobCore flags env job).job.status = .COMPLETED
      ∧ (runJobCore flags env job).trace = [.RUNNING, .COMPLETED])
    ∨ ((runJobCore flags env job).job.status = .FAILED
      ∧ (runJobCore flags env job).trace = [.RUNNING, .FAILED]) := by
  rcases hd : dispatchBackend flags env { job with status := .RUNNING }
      (job.parameters.getD Params.emptyBag) with ⟨res, inv⟩
  cases res with
  | ok p =>
    left
    constructor <;> simp only [runJobCore, hd]
  | error e =>
    right
    constructor <;> simp only [runJobCore, hd]

/-- On a fresh id, `setJob` is an append. -/
theorem setJob_fresh (jobs : List (String × Job)) (id : String) (j : Job)
    (h : jobs.lookup id = none) : setJob jobs id j = jobs ++ [(id, j)] := by
  rw [setJob, lookup_none_any_false jobs id h]
  simp

/-- An admitted request runs `_execute_circuit` on the freshly created job
in both execution modes: after background completion, the registry, the
status-write trace, the persisted records and the invoked adapters are
exactly those of one `runJobCore` run on the created job. -/
theorem runRequest_run (flags : SdkFlags) (env : DispatchEnv)
    (req : CircuitExecutionRequest) (id t : String)
    (jobs : List (String × Job))
    (hcf : isBlankCircuit req.circuit_file = false)
    (hsh : ¬ req.shots ≤ 0)
    (hvp : req.backend_provider ∈ validProviders req.backend_type)
    (hav : check_provider_availability flags req.backend_provider = true)
    (hfresh : jobs.lookup id = none) :
    (runRequest flags env req id t jobs).jobs
        = updateJob (setJob jobs id (mkJob req id t)) id
            (runJobCore flags env (mkJob req id t)).job
    ∧ (runRequest flags env req id t jobs).trace
        = .QUEUED :: (runJobCore flags env (mkJob req id t)).trace
    ∧ (runRequest flags env req id t jobs).persisted
        = (runJobCore flags env (mkJob req id t)).persisted
    ∧ (runRequest flags env req id t jobs).invoked
        = (runJobCore flags env (mkJob req id t)).invoked := by
  have hlook : (setJob jobs id (mkJob req id t)).lookup id
      = some (mkJob req id t) := lookup_setJob_fresh _ _ _ hfresh
  by_cases ha : req.async_mode = true
  · refine ⟨?_, ?_, ?_, ?_⟩ <;>
      simp [runRequest, execute_circuit, runBgTasks, executeCircuitInternal,
        hcf, hsh, hvp, hav, ha, hlook]
  · refine ⟨?_, ?_, ?_, ?_⟩ <;>
      simp [runRequest, execute_circuit, runBgTasks, executeCircuitInternal,
        hcf, hsh, hvp, hav, ha, hlook]

/-- The job record visible under the new id after an admitted request has
fully run is the record produced by `runJobCore`. -/
theorem lookup_after_run (flags : SdkFlags) (env : DispatchEnv)
    (req : CircuitExecutionRequest) (id t : String)
    (jobs : List (String × Job)) (hfresh : jobs.lookup id = none) :
    (updateJob (setJob jobs id (mkJob req id t)) id
        (runJobCore flags env (mkJob req id t)).job).lookup id
      = some (runJobCore flags env (mkJob req id t)).job := by
  rw [setJob_fresh _ _ _ hfresh]
  exact lookup_updateJob_fresh _ _ _ _ hfresh

/-- Wrapper `execute_circuit_with_qiskit` only fails with a non-empty message. -/
theorem qiskit_error_ne_empty (flags : SdkFlags) (env : DispatchEnv)
    (e : String) (h : execute_circuit_with_qiskit flags env = .error e) :
    e ≠ "" := by
  unfold execute_circuit_with_qiskit at h
  split_ifs at h with hq
  case pos =>
    cases hr : env.qiskitRun with
    | error m =>
      simp only [hr] at h
      injection h with h
      rw [← h]
      exact append_ne_empty_left _ _ (by decide)
    | ok o =>
      cases o with
      | none =>
        simp only [hr] at h
        injection h with h
        rw [← h]
        decide
      | some r =>
        simp only [hr] at h
        exact Except.noConfusion h
  case neg =>
    injection h with h
    rw [← h]
    decide

/-- Wrapper `execute_circuit_with_cirq` only fails with a non-empty message. -/
theorem cirq_error_ne_empty (flags : SdkFlags) (env : DispatchEnv)
    (e : String) (h : execute_circuit_with_cirq flags env = .error e) :
    e ≠ "" := by
  unfold execute_circuit_with_cirq at h
  split_ifs at h with hq
  case pos =>
    cases hr : env.cirqRun with
    | error m =>
      simp only [hr] at h
      injection h with h
      rw [← h]
      exact append_ne_empty_left _ _ (by decide)
    | ok o =>
      cases o with
      | none =>
        simp only [hr] at h
        injection h with h
        rw [← h]
        decide
      | some r =>
        simp only [hr] at h
        exact Except.noConfusion h
  case neg =>
    injection h with h
    rw [← h]
    decide

/-- Wrapper `execute_circuit_with_braket` only fails with a non-empty message. -/
theorem braket_error_ne_empty (flags : SdkFlags) (env : DispatchEnv)
    (e : String) (h : execute_circuit_with_braket flags env = .error e) :
    e ≠ "" := by
  unfold execute_circuit_with_braket at h
  split_ifs at h with hq
  case pos =>
    cases hr : env.braketRun with
    | error m =>
      simp only [hr] at h
      injection h with h
      rw [← h]
      exact append_ne_empty_left _ _ (by decide)
    | ok o =>
      cases o with
      | none =>
        simp only [hr] at h
        injection h with h
        rw [← h]
        decide
      | some r =>
        simp only [hr] at h
        exact Except.noConfusion h
  case neg =>
    injection h with h
    rw [← h]
    decide

/-- Wrapper `execute_circuit_with_aws_hardware` only fails with a non-empty
message. -/
theorem aws_error_ne_empty (env : DispatchEnv) (e : String)
    (h : execute_circuit_with_aws_hardware_wrapper env = .error e) :
    e ≠ "" := by
  unfold execute_circuit_with_aws_hardware_wrapper at h
  cases hr : env.awsRun with
  | error m =>
    simp only [hr] at h
    injection h with h
    rw [← h]
    exact append_ne_empty_left _ _ (by decide)
  | ok o =>
    cases o with
    | none =>
      simp only [hr] at h
      injection h with h
      rw [← h]
      decide
    | some c =>
      simp only [hr] at h
      exact Except.noConfusion h

/-- Wrapper `execute_circuit_with_google_hardware` only fails with a non-empty
message. -/
theorem google_error_ne_empty (env : DispatchEnv) (e : String)
    (h : execute_circuit_with_google_hardware_wrapper env = .error e) :
    e ≠ "" := by
  unfold execute_circuit_with_google_hardware_wrapper at h
  cases hr : env.googleRun with
  | error m =>
    simp only [hr] at h
    injection h with h
    rw [← h]
    exact append_ne_empty_left _ _ (by decide)
  | ok o =>
    cases o with
    | none =>
      simp only [hr] at h
      injection h with h
      rw [← h]
      decide
    | some c =>
      simp only [hr] at h
      exact Except.noConfusion h

/-- Wrapper `execute_circuit_with_ibm_hardware` only fails with a non-empty
message: its only failure is the duplicate-keyword one, which carries the
fixed prefix. -/
theorem ibm_error_ne_empty (env : DispatchEnv) (parameters : Params)
    (shots : Int) (device_id : Option String) (e : String)
    (h : execute_circuit_with_ibm_hardware_wrapper env parameters shots
      device_id = .error e) : e ≠ "" := by
  unfold execute_circuit_with_ibm_hardware_wrapper at h
  cases hk : parameters.dupKeyword with
  | some k =>
    simp only [hk] at h
    injection h with h
    rw [← h]
    exact append_ne_empty_left _ _ (append_ne_empty_left _ _ (by decide))
  | none =>
    simp only [hk] at h
    exact Except.noConfusion h

/-- Every error the backend dispatch can produce carries a non-empty
message: the wrapper prefixes, the availability messages and the
unsupported-selection messages are all non-empty. -/
theorem dispatchBackend_error_ne_empty (flags : SdkFlags) (env : DispatchEnv)
    (job : Job) (parameters : Params) (e : String) (inv : List String)
    (hd : dispatchBackend flags env job parameters = (.error e, inv)) :
    e ≠ "" := by
  unfold dispatchBackend at hd
  split_ifs at hd <;> rw [Prod.mk.injEq] at hd <;> obtain ⟨hd1, _⟩ := hd
  · exact qiskit_error_ne_empty flags env e (except_map_error _ _ _ hd1)
  · exact braket_error_ne_empty flags env e (except_map_error _ _ _ hd1)
  · exact cirq_error_ne_empty flags env e (except_map_error _ _ _ hd1)
  · injection hd1 with h
    rw [← h]
    exact append_ne_empty_left _ _ (by decide)
  · exact ibm_error_ne_empty env _ _ _ e (except_map_error _ _ _ hd1)
  · exact aws_error_ne_empty env e (except_map_error _ _ _ hd1)
  · exact google_error_ne_empty env e (except_map_error _ _ _ hd1)
  · injection hd1 with h
    rw [← h]
    exact append_ne_empty_left _ _ (by decide)
  · injection hd1 with h
    rw [← h]
    exact append_ne_empty_left _ _ (by decide)

/-- C5: a request with non-positive shots, a blank circuit, a provider
outside the closed valid set for its backend type, or an unavailable
provider is rejected with an HTTP 400 validation failure; no job record is
created, no background task is enqueued, no adapter is invoked and nothing
is persisted. -/
theorem c5_validation_rejects (flags : SdkFlags) (env : DispatchEnv)
    (req : CircuitExecutionRequest) (id t : String)
    (jobs : List (String × Job))
    (h : isBlankCircuit req.circuit_file = true ∨ req.shots ≤ 0
      ∨ req.backend_provider ∉ validProviders req.backend_type
      ∨ check_provider_availability flags req.backend_provider = false) :
    (∃ detail, (execute_circuit flags env req id t jobs).response
        = .httpError 400 detail)
    ∧ (execute_circuit flags env req id t jobs).jobs = jobs
    ∧ (execute_circuit flags env req id t jobs).bgTasks = []
    ∧ (execute_circuit flags env req id t jobs).invoked = []
    ∧ (execute_circuit flags env req id t jobs).persisted = [] := by
  have hrej : ∃ d, execute_circuit flags env req id t jobs
      = rejectedOut jobs 400 d := by
    by_cases h1 : isBlankCircuit req.circuit_file = true
    · exact ⟨"Empty circuit file provided", by simp [execute_circuit, h1]⟩
    · by_cases h2 : req.shots ≤ 0
      · exact ⟨"Shots must be a positive integer",
          by simp [execute_circuit, h1, h2]⟩
      · by_cases h3 : req.backend_provider ∈ validProviders req.backend_type
        · by_cases h4 :
            check_provider_availability flags req.backend_provider = true
          · exfalso
            rcases h with h | h | h | h
            · exact h1 h
            · exact h2 h
            · exact h h3
            · rw [h4] at h
              exact Bool.noConfusion h
          · exact ⟨req.backend_provider ++ " backend is not available",
              by simp [execute_circuit, h1, h2, h3, h4]⟩
        · exact ⟨"Invalid backend provider for " ++ req.backend_type.value
              ++ ". Must be one of: "
              ++ String.intercalate ", " (validProviders req.backend_type),
            by simp [execute_circuit, h1, h2, h3]⟩
  obtain ⟨d, hd⟩ := hrej
  rw [hd]
  exact ⟨⟨d, rfl⟩, rfl, rfl, rfl, rfl⟩

/-- Witness for `c5_validation_rejects`: shots = -5 is rejected and creates
nothing. -/
theorem c5_validation_rejects_witness :
    (c5SampleReq.shots ≤ 0)
    ∧ ((∃ detail,
          (execute_circuit flagsAll sampleDispatchEnv c5SampleReq "job-5"
            "t0" []).response = .httpError 400 detail)
      ∧ (execute_circuit flagsAll sampleDispatchEnv c5SampleReq "job-5" "t0"
          []).jobs = []
      ∧ (execute_circuit flagsAll sampleDispatchEnv c5SampleReq "job-5" "t0"
          []).bgTasks = []
      ∧ (execute_circuit flagsAll sampleDispatchEnv c5SampleReq "job-5" "t0"
          []).invoked = []
      ∧ (execute_circuit flagsAll sampleDispatchEnv c5SampleReq "job-5" "t0"
          []).persisted = []) :=
  ⟨by decide,
    c5_validation_rejects flagsAll sampleDispatchEnv c5SampleReq "job-5" "t0"
      [] (Or.inr (Or.inl (by decide)))⟩

/-- C4: for an admitted request (in either execution mode), the sequence of
status values the job record takes is exactly
QUEUED, RUNNING, then COMPLETED or FAILED — monotone along the lifecycle
chain, with no write after a terminal status. -/
theorem c4_status_transitions_monotone (flags : SdkFlags)
    (env : DispatchEnv) (req : CircuitExecutionRequest) (id t : String)
    (jobs : List (String × Job))
    (hcf : isBlankCircuit req.circuit_file = false)
    (hsh : ¬ req.shots ≤ 0)
    (hvp : req.backend_provider ∈ validProviders req.backend_type)
    (hav : check_provider_availability flags req.backend_provider = true)
    (hfresh : jobs.lookup id = none) :
    ((runRequest flags env req id t jobs).trace
        = [.QUEUED, .RUNNING, .COMPLETED]
     ∨ (runRequest flags env req id t jobs).trace
        = [.QUEUED, .RUNNING, .FAILED])
    ∧ monotoneNoExit (runRequest flags env req id t jobs).trace = true := by
  obtain ⟨-, ht, -, -⟩ :=
    runRequest_run flags env req id t jobs hcf hsh hvp hav hfresh
  rcases runJobCore_terminal flags env (mkJob req id t) with
    ⟨-, htr⟩ | ⟨-, htr⟩
  · rw [ht, htr]
    exact ⟨Or.inl rfl, by decide⟩
  · rw [ht, htr]
    exact ⟨Or.inr rfl, by decide⟩

/-- Witness for `c4_status_transitions_monotone` on a concrete qiskit
request. -/
theorem c4_status_transitions_monotone_witness :
    (isBlankCircuit simSampleReq.circuit_file = false
      ∧ ¬ simSampleReq.shots ≤ 0
      ∧ simSampleReq.backend_provider
          ∈ validProviders simSampleReq.backend_type
      ∧ check_provider_availability flagsAll simSampleReq.backend_provider
          = true
      ∧ ([] : List (String × Job)).lookup "job-4" = none)
    ∧ (((runRequest flagsAll sampleDispatchEnv simSampleReq "job-4" "t0"
          []).trace = [.QUEUED, .RUNNING, .COMPLETED]
        ∨ (runRequest flagsAll sampleDispatchEnv simSampleReq "job-4" "t0"
          []).trace = [.QUEUED, .RUNNING, .FAILED])
      ∧ monotoneNoExit (runRequest flagsAll sampleDispatchEnv simSampleReq
          "job-4" "t0" []).trace = true) :=
  ⟨⟨by decide, by decide, by decide, by decide, rfl⟩,
    c4_status_transitions_monotone flagsAll sampleDispatchEnv simSampleReq
      "job-4" "t0" [] (by decide) (by decide) (by decide) (by decide) rfl⟩

/-- C3: an admitted request produces, after background completion, the
identical registry, status-write trace, persisted records and adapter
invocations in synchronous and asynchronous mode (both funnel through
`_execute_circuit` on the created job id); the mode only decides whether
the caller gets the terminal job (synchronous) or an immediate QUEUED
response (asynchronous). -/
theorem c3_sync_async_same_effects (flags : SdkFlags) (env : DispatchEnv)
    (req : CircuitExecutionRequest) (id t : String)
    (jobs : List (String × Job))
    (hcf : isBlankCircuit req.circuit_file = false)
    (hsh : ¬ req.shots ≤ 0)
    (hvp : req.backend_provider ∈ validProviders req.backend_type)
    (hav : check_provider_availability flags req.backend_provider = true)
    (hfresh : jobs.lookup id = none) :
    (runRequest flags env { req with async_mode := false } id t jobs).jobs
      = (runRequest flags env { req with async_mode := true } id t jobs).jobs
    ∧ (runRequest flags env { req with async_mode := false } id t jobs).trace
      = (runRequest flags env { req with async_mode := true } id t jobs).trace
    ∧ (runRequest flags env { req with async_mode := false } id t
        jobs).persisted
      = (runRequest flags env { req with async_mode := true } id t
          jobs).persisted
    ∧ (runRequest flags env { req with async_mode := false } id t
        jobs).invoked
      = (runRequest flags env { req with async_mode := true } id t
          jobs).invoked
    ∧ (execute_circuit flags env { req with async_mode := true } id t
        jobs).response
      = .envelope "success" (some
          { job_id := id, status := .QUEUED, execution_mode := "async",
            counts := none, execution_time := none,
            provider_job_id := none, provider_job_status := none }) none
    ∧ ∃ j, (runRequest flags env { req with async_mode := false } id t
          jobs).jobs.lookup id = some j
        ∧ (j.status = .COMPLETED ∨ j.status = .FAILED) := by
  obtain ⟨hjS, htS, hpS, hiS⟩ :=
    runRequest_run flags env { req with async_mode := false } id t jobs
      hcf hsh hvp hav hfresh
  obtain ⟨hjA, htA, hpA, hiA⟩ :=
    runRequest_run flags env { req with async_mode := true } id t jobs
      hcf hsh hvp hav hfresh
  have hmk : ∀ b : Bool, mkJob { req with async_mode := b } id t
      = mkJob req id t := fun b => rfl
  rw [hmk false] at hjS htS hpS hiS
  rw [hmk true] at hjA htA hpA hiA
  refine ⟨?_, ?_, ?_, ?_, ?_, ?_⟩
  · rw [hjS, hjA]
  · rw [htS, htA]
  · rw [hpS, hpA]
  · rw [hiS, hiA]
  · simp [execute_circuit, hcf, hsh, hvp, hav]
  · rw [hjS]
    refine ⟨_, lookup_after_run flags env req id t jobs hfresh, ?_⟩
    rcases runJobCore_terminal flags env (mkJob req id t) with
      ⟨hs, -⟩ | ⟨hs, -⟩
    · exact Or.inl hs
    · exact Or.inr hs

/-- Witness for `c3_sync_async_same_effects` on a concrete qiskit
request. -/
theorem c3_sync_async_same_effects_witness :
    (isBlankCircuit simSampleReq.circuit_file = false
      ∧ ¬ simSampleReq.shots ≤ 0
      ∧ simSampleReq.backend_provider
          ∈ validProviders simSampleReq.backend_type
      ∧ check_provider_availability flagsAll simSampleReq.backend_provider
          = true
      ∧ ([] : List (String × Job)).lookup "job-3" = none)
    ∧ ((runRequest flagsAll sampleDispatchEnv
          { simSampleReq with async_mode := false } "job-3" "t0" []).jobs
        = (runRequest flagsAll sampleDispatchEnv
            { simSampleReq with async_mode := true } "job-3" "t0" []).jobs
      ∧ (runRequest flagsAll sampleDispatchEnv
          { simSampleReq with async_mode := false } "job-3" "t0" []).trace
        = (runRequest flagsAll sampleDispatchEnv
            { simSampleReq with async_mode := true } "job-3" "t0" []).trace
      ∧ (runRequest flagsAll sampleDispatchEnv
          { simSampleReq with async_mode := false } "job-3" "t0"
          []).persisted
        = (runRequest flagsAll sampleDispatchEnv
            { simSampleReq with async_mode := true } "job-3" "t0"
            []).persisted
      ∧ (runRequest flagsAll sampleDispatchEnv
          { simSampleReq with async_mode := false } "job-3" "t0" []).invoked
        = (runRequest flagsAll sampleDispatchEnv
            { simSampleReq with async_mode := true } "job-3" "t0"
            []).invoked
      ∧ (execute_circuit flagsAll sampleDispatchEnv
          { simSampleReq with async_mode := true } "job-3" "t0"
          []).response
        = .envelope "success" (some
            { job_id := "job-3", status := .QUEUED,
              execution_mode := "async", counts := none,
              execution_time := none, provider_job_id := none,
              provider_job_status := none }) none
      ∧ ∃ j, (runRequest flagsAll sampleDispatchEnv
            { simSampleReq with async_mode := false } "job-3" "t0"
            []).jobs.lookup "job-3" = some j
          ∧ (j.status = .COMPLETED ∨ j.status = .FAILED)) :=
  ⟨⟨by decide, by decide, by decide, by decide, rfl⟩,
    c3_sync_async_same_effects flagsAll sampleDispatchEnv simSampleReq
      "job-3" "t0" [] (by decide) (by decide) (by decide) (by decide) rfl⟩

/-- C6: an adapter exception is caught at the dispatch boundary:
`_execute_circuit` returns normally (no fault reaches its caller), the job
transitions to FAILED, and the persisted failure record has
`success = false` and a non-empty error string. -/
theorem c6_adapter_exception_contained (flags : SdkFlags)
    (env : DispatchEnv) (job : Job) (e : String) (inv : List String)
    (hd : dispatchBackend flags env { job with status := .RUNNING }
        (job.parameters.getD Params.emptyBag) = (.error e, inv)) :
    ∃ ed : ErrorData,
      (runJobCore flags env job).job.status = .FAILED
      ∧ (runJobCore flags env job).ret = .err ed
      ∧ (runJobCore flags env job).persisted
          = [(resultPath job.job_id, .err ed)]
      ∧ ed.success = false
      ∧ ed.error = e
      ∧ ed.error ≠ "" := by
  refine ⟨⟨e, errorMetadata { job with status := .RUNNING } env.failed_at,
      false⟩, ?_, ?_, ?_, rfl, rfl, ?_⟩
  · simp only [runJobCore, hd]
  · simp only [runJobCore, hd]
  · simp only [runJobCore, hd]
  · exact dispatchBackend_error_ne_empty flags env _ _ e inv hd

/-- Witness for `c6_adapter_exception_contained` on a raising qiskit
adapter. -/
theorem c6_adapter_exception_contained_witness :
    (dispatchBackend flagsAll c6SampleEnv
        { c6SampleJob with status := .RUNNING }
        (c6SampleJob.parameters.getD Params.emptyBag)
      = (.error "Failed to execute circuit with Qiskit: boom", ["qiskit"]))
    ∧ ∃ ed : ErrorData,
        (runJobCore flagsAll c6SampleEnv c6SampleJob).job.status = .FAILED
        ∧ (runJobCore flagsAll c6SampleEnv c6SampleJob).ret = .err ed
        ∧ (runJobCore flagsAll c6SampleEnv c6SampleJob).persisted
            = [(resultPath c6SampleJob.job_id, .err ed)]
        ∧ ed.success = false
        ∧ ed.error = "Failed to execute circuit with Qiskit: boom"
        ∧ ed.error ≠ "" :=
  ⟨rfl, c6_adapter_exception_contained flagsAll c6SampleEnv c6SampleJob
    "Failed to execute circuit with Qiskit: boom" ["qiskit"] rfl⟩

/-- C2 evaluated at the failing input: a successful synchronous qiskit
simulator execution sets the provider job identifier of the job record —
to the engine's own internal job id — because the id-harvesting loop of
`_execute_circuit` scans the engine-built result metadata, whose `job_id`
entry always exists.  The claim says a simulator job never has a provider
job identifier. -/
theorem c2_simulator_job_gets_provider_id :
    simSampleReq.backend_type = BackendType.simulator
    ∧ ((runRequest flagsAll sampleDispatchEnv simSampleReq "job-2" "t0"
          []).jobs.lookup "job-2").map (fun j => j.provider_job_id)
        = some (some (MVal.str "job-2")) :=
  ⟨rfl, rfl⟩

/-- With a successful submission, `wait_for_results` true, and no status
poll ever reporting a DONE-like status, the runner exhausts the polling
loop, queries the provider status twice more (the final check at line 256
and the failure message at line 403), and returns — without raising — the
error counts dictionary whose message embeds the last observed provider
status. -/
theorem run_on_ibm_hardware_timeout_eq (env : IBMEnv)
    (device_id : Option String) (shots timeout opt : Int) (jid : String)
    (hpre : env.preFailure = none) (hsub : env.submit = .ok jid)
    (hterm : ∀ i, strUpper (env.statusAt i) ≠ "DONE") :
    run_on_ibm_hardware env device_id shots true timeout opt =
      { counts := [("error", 1)]
        metadata :=
          [("platform", .s "ibm"), ("provider", .s "IBM"),
           ("device", .s env.deviceName), ("device_id", .o device_id),
           ("provider_job_id", .s jid),
           ("optimization_level", .i opt),
           ("error", .s ("Job failed or timed out. Final status: "
             ++ env.statusAt
                  (loopQueries env.statusAt (pollBudget timeout) + 1)))]
        statusQueries := loopQueries env.statusAt (pollBudget timeout) + 2 }
      := by
  have hq := hterm (loopQueries env.statusAt (pollBudget timeout))
  simp only [run_on_ibm_hardware, hpre, hsub, if_neg hq]
  rfl

/-- C1 (amended): when an admitted IBM hardware execution reaches the
polling loop at all — the parameter bag must carry none of the runner
keywords, else the duplicate-keyword TypeError fails the job before
submission; the defaults then apply, so `wait_for_results` is true — and
the provider never reports a DONE-like status before the budget elapses,
the runner converts the timeout into an error-bearing result dictionary
(sentinel counts, metadata error message embedding the last observed
provider status), the wrapper hands it back as a normal value, and the
engine therefore records the job as COMPLETED with that payload persisted
as a success record — not as FAILED. -/
theorem c1_amended_timeout_completed (flags : SdkFlags) (env : DispatchEnv)
    (req : CircuitExecutionRequest) (id t : String)
    (jobs : List (String × Job)) (jid : String)
    (hcf : isBlankCircuit req.circuit_file = false)
    (hsh : ¬ req.shots ≤ 0)
    (hbt : req.backend_type = .hardware)
    (hbp : req.backend_provider = "ibm")
    (hfresh : jobs.lookup id = none)
    (hnodup : (req.parameters.getD Params.emptyBag).dupKeyword = none)
    (hpre : env.ibm.preFailure = none)
    (hsub : env.ibm.submit = .ok jid)
    (hterm : ∀ i, strUpper (env.ibm.statusAt i) ≠ "DONE") :
    ∃ rd : ResultData, ∃ iout : IBMRunOut,
      (runRequest flags env req id t jobs).persisted
          = [(resultPath id, .ok rd)]
      ∧ rd.success = true
      ∧ rd.counts = .ibm iout
      ∧ iout.counts = [("error", 1)]
      ∧ iout.metadata.lookup "error" = some (.s
          ("Job failed or timed out. Final status: "
            ++ env.ibm.statusAt (loopQueries env.ibm.statusAt
                (pollBudget ((req.parameters.getD
                  Params.emptyBag).poll_timeout_seconds.getD 3600)) + 1)))
      ∧ ((runRequest flags env req id t jobs).jobs.lookup id).map Job.status
          = some .COMPLETED := by
  have hvp : req.backend_provider ∈ validProviders req.backend_type := by
    rw [hbt, hbp]
    decide
  have hav : check_provider_availability flags req.backend_provider
      = true := by
    rw [hbp]
    rfl
  obtain ⟨hjobs, -, hpers, -⟩ :=
    runRequest_run flags env req id t jobs hcf hsh hvp hav hfresh
  have hbt2 : (mkJob req id t).backend_type = "hardware" := by
    show req.backend_type.value = "hardware"
    rw [hbt]
    rfl
  have hbp2 : (mkJob req id t).backend_provider = "ibm" := hbp
  have hnodup2 : ((mkJob req id t).parameters.getD
      Params.emptyBag).dupKeyword = none := hnodup
  have hwf : ((mkJob req id t).parameters.getD
      Params.emptyBag).wait_for_results = none := by
    have h := hnodup2
    unfold Params.dupKeyword at h
    by_cases h1 : ((mkJob req id t).parameters.getD
        Params.emptyBag).wait_for_results.isSome
    · rw [if_pos h1] at h
      exact Option.noConfusion h
    · exact Option.not_isSome_iff_eq_none.mp h1
  have hwait2 : ((mkJob req id t).parameters.getD
      Params.emptyBag).wait_for_results.getD true = true := by
    rw [hwf]
    rfl
  have hdisp : dispatchBackend flags env
      { mkJob req id t with status := .RUNNING }
      ((mkJob req id t).parameters.getD Params.emptyBag)
      = ((execute_circuit_with_ibm_hardware_wrapper env
          ((mkJob req id t).parameters.getD Params.emptyBag)
          (mkJob req id t).shots (mkJob req id t).backend_name).map .ibm,
        ["ibm"]) := by
    simp [dispatchBackend, hbt2, hbp2]
  have hwrap : execute_circuit_with_ibm_hardware_wrapper env
      ((mkJob req id t).parameters.getD Params.emptyBag)
      (mkJob req id t).shots (mkJob req id t).backend_name
      = .ok { counts := [("error", 1)]
              metadata :=
                [("platform", .s "ibm"), ("provider", .s "IBM"),
                 ("device", .s env.ibm.deviceName),
                 ("device_id", .o (mkJob req id t).backend_name),
                 ("provider_job_id", .s jid),
                 ("optimization_level",
                   .i (((mkJob req id t).parameters.getD
                     Params.emptyBag).optimization_level.getD 1)),
                 ("error", .s ("Job failed or timed out. Final status: "
                   ++ env.ibm.statusAt (loopQueries env.ibm.statusAt
                       (pollBudget (((mkJob req id t).parameters.getD
                         Params.emptyBag).poll_timeout_seconds.getD 3600))
                       + 1))),
                 ("execution_time", .f env.wrapTime)]
              statusQueries := loopQueries env.ibm.statusAt
                (pollBudget (((mkJob req id t).parameters.getD
                  Params.emptyBag).poll_timeout_seconds.getD 3600)) + 2 }
      := by
    simp only [execute_circuit_with_ibm_hardware_wrapper, hnodup2]
    rw [hwait2]
    rw [run_on_ibm_hardware_timeout_eq env.ibm
      (mkJob req id t).backend_name (mkJob req id t).shots
      (((mkJob req id t).parameters.getD
        Params.emptyBag).poll_timeout_seconds.getD 3600)
      (((mkJob req id t).parameters.getD
        Params.emptyBag).optimization_level.getD 1)
      jid hpre hsub hterm]
    rfl
  have hdisp2 : dispatchBackend flags env
      { mkJob req id t with status := .RUNNING }
      ((mkJob req id t).parameters.getD Params.emptyBag)
      = (.ok (Payload.ibm
          { counts := [("error", 1)]
            metadata :=
              [("platform", .s "ibm"), ("provider", .s "IBM"),
               ("device", .s env.ibm.deviceName),
               ("device_id", .o (mkJob req id t).backend_name),
               ("provider_job_id", .s jid),
               ("optimization_level",
                 .i (((mkJob req id t).parameters.getD
                   Params.emptyBag).optimization_level.getD 1)),
               ("error", .s ("Job failed or timed out. Final status: "
                 ++ env.ibm.statusAt (loopQueries env.ibm.statusAt
                     (pollBudget (((mkJob req id t).parameters.getD
                       Params.emptyBag).poll_timeout_seconds.getD 3600))
                     + 1))),
               ("execution_time", .f env.wrapTime)]
            statusQueries := loopQueries env.ibm.statusAt
              (pollBudget (((mkJob req id t).parameters.getD
                Params.emptyBag).poll_timeout_seconds.getD 3600)) + 2 }),
        ["ibm"]) := by
    rw [hdisp, hwrap]
    rfl
  let iout : IBMRunOut :=
    { counts := [("error", 1)]
      metadata :=
        [("platform", .s "ibm"), ("provider", .s "IBM"),
         ("device", .s env.ibm.deviceName),
         ("device_id", .o (mkJob req id t).backend_name),
         ("provider_job_id", .s jid),
         ("optimization_level",
           .i (((mkJob req id t).parameters.getD
             Params.emptyBag).optimization_level.getD 1)),
         ("error", .s ("Job failed or timed out. Final status: "
           ++ env.ibm.statusAt (loopQueries env.ibm.statusAt
               (pollBudget (((mkJob req id t).parameters.getD
                 Params.emptyBag).poll_timeout_seconds.getD 3600))
               + 1))),
         ("execution_time", .f env.wrapTime)]
      statusQueries := loopQueries env.ibm.statusAt
        (pollBudget (((mkJob req id t).parameters.getD
          Params.emptyBag).poll_timeout_seconds.getD 3600)) + 2 }
  refine ⟨⟨Payload.ibm iout, env.execTime,
      successMetadata { mkJob req id t with status := .RUNNING }
        ((mkJob req id t).parameters.getD Params.emptyBag) env.completed_at,
      true⟩, iout, ?_, rfl, rfl, ?_, ?_, ?_⟩
  · rw [hpers]
    simp only [runJobCore, hdisp2]
    rfl
  · rfl
  · rfl
  · rw [hjobs, lookup_after_run flags env req id t jobs hfresh]
    simp only [Option.map_some']
    simp only [runJobCore, hdisp2]

/-- C1 counterexample: `c1SampleReq` carries an empty parameter bag, so the
runner is called with its defaults and the polling loop really runs; in
`sampleDispatchEnv` the IBM provider reports "RUNNING" at every poll, so
the default 3600-second polling budget elapses without a terminal status —
yet the job ends up recorded as COMPLETED, not FAILED as the claim states:
the runner returns the timeout as an error-shaped result instead of
raising, and the engine treats any returned value as success. -/
theorem c1_counterexample_timeout_not_failed :
    ((runRequest flagsAll sampleDispatchEnv c1SampleReq "job-1" "t0"
        []).jobs.lookup "job-1").map Job.status = some .COMPLETED
    ∧ JobStatus.COMPLETED ≠ JobStatus.FAILED :=
  ⟨rfl, by decide⟩

/-- Witness for `c1_amended_timeout_completed` at the concrete
never-terminal environment. -/
theorem c1_amended_timeout_completed_witness :
    (isBlankCircuit c1SampleReq.circuit_file = false
      ∧ ¬ c1SampleReq.shots ≤ 0
      ∧ c1SampleReq.backend_type = .hardware
      ∧ c1SampleReq.backend_provider = "ibm"
      ∧ ([] : List (String × Job)).lookup "job-1w" = none
      ∧ (c1SampleReq.parameters.getD Params.emptyBag).dupKeyword = none
      ∧ sampleDispatchEnv.ibm.preFailure = none
      ∧ sampleDispatchEnv.ibm.submit = .ok "prov-1"
      ∧ ∀ i, strUpper (sampleDispatchEnv.ibm.statusAt i) ≠ "DONE")
    ∧ (∃ rd : ResultData, ∃ iout : IBMRunOut,
        (runRequest flagsAll sampleDispatchEnv c1SampleReq "job-1w" "t0"
            []).persisted = [(resultPath "job-1w", .ok rd)]
        ∧ rd.success = true
        ∧ rd.counts = .ibm iout
        ∧ iout.counts = [("error", 1)]
        ∧ iout.metadata.lookup "error" = some (.s
            ("Job failed or timed out. Final status: "
              ++ sampleDispatchEnv.ibm.statusAt
                  (loopQueries sampleDispatchEnv.ibm.statusAt
                    (pollBudget ((c1SampleReq.parameters.getD
                      Params.emptyBag).poll_timeout_seconds.getD 3600))
                    + 1)))
        ∧ ((runRequest flagsAll sampleDispatchEnv c1SampleReq "job-1w" "t0"
            []).jobs.lookup "job-1w").map Job.status = some .COMPLETED) :=
  ⟨⟨by decide, by decide, rfl, rfl, rfl, rfl, rfl, rfl,
      by
        intro i
        show strUpper "RUNNING" ≠ "DONE"
        decide⟩,
    c1_amended_timeout_completed flagsAll sampleDispatchEnv c1SampleReq
      "job-1w" "t0" [] "prov-1" (by decide) (by decide) rfl rfl rfl rfl rfl
      rfl (by
        intro i
        show strUpper "RUNNING" ≠ "DONE"
        decide)⟩

end Microservice

